import Mathlib

/-!
Shallow embedding of src/generate_map.py (fftri-map-events).

External capabilities (the HTTP transport, the BeautifulSoup HTML query
layer, urllib urljoin, the folium renderer) are passed as explicit
function parameters or modelled as abstract result values, exactly as the
spec treats them: collaborators outside the core.  Machine floats are
modelled as exact rationals; every coordinate in the program is obtained
by parsing a short decimal literal and no claim depends on IEEE rounding.
Python set iteration is modelled as insertion order.  Uncaught Python
exceptions are modelled as the error case of Except.
-/

namespace FftriMap

/- ## Digits and zero padded decimal rendering -/

def dchar : Nat → Char
  | 0 => '0'
  | 1 => '1'
  | 2 => '2'
  | 3 => '3'
  | 4 => '4'
  | 5 => '5'
  | 6 => '6'
  | 7 => '7'
  | 8 => '8'
  | 9 => '9'
  | _ => '0'

def pad2 (n : Nat) : List Char := [dchar (n / 10 % 10), dchar (n % 10)]

def pad4 (n : Nat) : List Char :=
  [dchar (n / 1000 % 10), dchar (n / 100 % 10), dchar (n / 10 % 10), dchar (n % 10)]

/- ## Calendar dates (the datetime values the program stores) -/

structure Date where
  year : Nat
  month : Nat
  day : Nat
deriving DecidableEq

def isLeap (y : Nat) : Bool := y % 4 == 0 && (y % 100 != 0 || y % 400 == 0)

def daysInMonth (y m : Nat) : Nat :=
  if m = 2 then (if isLeap y then 29 else 28)
  else if m = 4 ∨ m = 6 ∨ m = 9 ∨ m = 11 then 30
  else 31

/- ## CPython strptime with format %Y-%m-%d

The CPython _strptime table compiles %Y to four digits, %m to the
alternation 1[0-2]|0[1-9]|[1-9] and %d to 3[01]|[12]\d|0[1-9]|[1-9],
tried in that order; the whole input must be consumed, and the datetime
constructor then validates the calendar values (year at least 1, day at
most the month length).  The matchers below follow that table, returning
the parsed value and the unconsumed rest. -/

def matchYear : List Char → Option (Nat × List Char)
  | c0 :: c1 :: c2 :: c3 :: r =>
    if c0.isDigit ∧ c1.isDigit ∧ c2.isDigit ∧ c3.isDigit then
      some (1000 * (c0.toNat - 48) + 100 * (c1.toNat - 48) + 10 * (c2.toNat - 48)
        + (c3.toNat - 48), r)
    else none
  | _ => none

def matchMonth : List Char → Option (Nat × List Char)
  | c0 :: c1 :: r =>
    if c0 = '1' ∧ '0' ≤ c1 ∧ c1 ≤ '2' then some (10 + (c1.toNat - 48), r)
    else if c0 = '0' ∧ '1' ≤ c1 ∧ c1 ≤ '9' then some (c1.toNat - 48, r)
    else if '1' ≤ c0 ∧ c0 ≤ '9' then some (c0.toNat - 48, c1 :: r)
    else none
  | [c0] => if '1' ≤ c0 ∧ c0 ≤ '9' then some (c0.toNat - 48, []) else none
  | [] => none

def matchDay : List Char → Option (Nat × List Char)
  | c0 :: c1 :: r =>
    if c0 = '3' ∧ ('0' ≤ c1 ∧ c1 ≤ '1') then some (30 + (c1.toNat - 48), r)
    else if ('1' ≤ c0 ∧ c0 ≤ '2') ∧ c1.isDigit then
      some (10 * (c0.toNat - 48) + (c1.toNat - 48), r)
    else if c0 = '0' ∧ '1' ≤ c1 ∧ c1 ≤ '9' then some (c1.toNat - 48, r)
    else if '1' ≤ c0 ∧ c0 ≤ '9' then some (c0.toNat - 48, c1 :: r)
    else none
  | [c0] => if '1' ≤ c0 ∧ c0 ≤ '9' then some (c0.toNat - 48, []) else none
  | [] => none

def pyStrptimeYMD (cs : List Char) : Option Date :=
  match matchYear cs with
  | none => none
  | some (y, r1) =>
    match r1 with
    | [] => none
    | c1 :: r2 =>
      if c1 = '-' then
        match matchMonth r2 with
        | none => none
        | some (m, r3) =>
          match r3 with
          | [] => none
          | c2 :: r4 =>
            if c2 = '-' then
              match matchDay r4 with
              | none => none
              | some (d, r5) =>
                if r5 = [] then
                  if 1 ≤ y ∧ 1 ≤ d ∧ d ≤ daysInMonth y m then some ⟨y, m, d⟩ else none
                else none
            else none
      else none

/- A strictly zero padded YYYY-MM-DD rendering of a calendar date: the
fixed source date format named by the spec. -/
def fmtYMD (y m d : Nat) : List Char := pad4 y ++ ('-' :: (pad2 m ++ ('-' :: pad2 d)))

/- ## The Event dataclass (lines 88 to 105 of generate_map.py) -/

structure Event where
  link : String
  datetime : Date
  lat : ℚ
  lon : ℚ
deriving DecidableEq

/- Python hash of an Event is hash of its link string alone; modelled by
the link itself, so two hashes agree exactly when the links agree.
Equality of Events is the dataclass generated one: it compares every
field, which structure equality models. -/
def eventHash (e : Event) : String := e.link

def removePrefixL (p s : List Char) : List Char :=
  if p.isPrefixOf s then s.drop p.length else s

def removeSuffixL (p s : List Char) : List Char :=
  if p.isSuffixOf s then s.take (s.length - p.length) else s

/- Python str.title over ASCII: a cased character following a cased one
is lowered, otherwise uppered; everything else resets the word flag. -/
def pyTitle : Bool → List Char → List Char
  | _, [] => []
  | prevCased, c :: r =>
    if c.isAlpha then (if prevCased then c.toLower else c.toUpper) :: pyTitle true r
    else c :: pyTitle false r

def Event.title (e : Event) : String :=
  String.mk (pyTitle false
    ((removeSuffixL (".html".data)
        (removePrefixL ("https://fftri.t2area.com/calendrier/".data) e.link.data)).map
      (fun c => if c = '-' then ' ' else c)))

/- ## Console log events the pipeline emits -/

inductive Log where
  | warnParse
  | found (n : Nat)
  | loadingUrl (u : String)
  | failedLoad (u : String)
  | foundMarker (la lo : ℚ)
  | noMarker (u : String)
  | errorFetching (u : String)
deriving DecidableEq

/- ## Listing entries as the HTML query capability delivers them

One li of ul#adv-filter-gallery.  aTag models select_one on
h4.stories__headline a: none when no such element, some none when the
element exists but has no href attribute (subscripting then raises
KeyError inside the try), some (some h) when the href is present.
timeDatetime models select_one on time[datetime], whose selector already
guarantees the attribute, so a single Option suffices. -/
structure Entry where
  aTag : Option (Option String)
  timeDatetime : Option String
deriving DecidableEq

inductive EntryResult where
  | ok (e : Event)
  | skipSilent
  | skipWarn

/- The body of the for loop of extract_event_links_and_dates, lines 112
to 122: the truthiness test on both tags, the href subscript (KeyError
caught as a warning), urljoin against the base url, and strptime (a
ValueError caught as a warning). -/
def parseEntry (urljoin : String → String → String) (base_url : String) (li : Entry) :
    EntryResult :=
  match li.aTag, li.timeDatetime with
  | some (some href), some dt =>
    match pyStrptimeYMD dt.data with
    | some d => .ok ⟨urljoin base_url href, d, 0, 0⟩
    | none => .skipWarn
  | some none, some _ => .skipWarn
  | _, _ => .skipSilent

/- Python set insertion: the element is added unless an equal one is
already present.  Hash equality alone never collapses two elements; only
equality does, and Event equality compares every field. -/
def setAdd (s : List Event) (e : Event) : List Event :=
  if e ∈ s then s else s ++ [e]

def stepE (urljoin : String → String → String) (base_url : String)
    (acc : List Event × List Log) (li : Entry) : List Event × List Log :=
  match parseEntry urljoin base_url li with
  | .ok e => (setAdd acc.1 e, acc.2)
  | .skipSilent => acc
  | .skipWarn => (acc.1, acc.2 ++ [Log.warnParse])

/- extract_event_links_and_dates, lines 108 to 127.  The html argument of
the source arrives here already parsed into listing entries by the
external HTML capability. -/
def extract_event_links_and_dates (urljoin : String → String → String) (lis : List Entry)
    (base_url : String) : List Event × List Log :=
  ((lis.foldl (stepE urljoin base_url) ([], [])).1,
   (lis.foldl (stepE urljoin base_url) ([], [])).2
     ++ [Log.found (lis.foldl (stepE urljoin base_url) ([], [])).1.length])

/- The events a list of entries gives rise to, ignoring set absorption. -/
def genEvents (urljoin : String → String → String) (base_url : String)
    (lis : List Entry) : List Event :=
  lis.filterMap (fun li =>
    match parseEntry urljoin base_url li with
    | .ok e => some e
    | _ => none)

/- ## The marker pattern of line 143

Regular expression var\s+marker\s*=\s*L\.marker\(\s*\[\s*([-\d.]+)\s*,\s*([-\d.]+)\s*\]
searched over the raw page body.  The character classes of the two groups
are disjoint from every literal and whitespace that follows them, so the
greedy Python matcher is equivalent to the maximal munch matcher below,
and re.search takes the leftmost position at which the pattern fits. -/

def isWsC (c : Char) : Bool :=
  c = ' ' || c = '\t' || c = '\n' || c = '\r' || c = '\x0B' || c = '\x0C'

def isNumC (c : Char) : Bool := c = '-' || c = '.' || c.isDigit

def lit : List Char → List Char → Option (List Char)
  | [], s => some s
  | _ :: _, [] => none
  | c :: p, d :: s => if c = d then lit p s else none

def ws0 (s : List Char) : List Char := s.dropWhile isWsC

def ws1 : List Char → Option (List Char)
  | [] => none
  | c :: r => if isWsC c then some (r.dropWhile isWsC) else none

def grabNum (s : List Char) : Option (List Char × List Char) :=
  match s.takeWhile isNumC with
  | [] => none
  | g => some (g, s.dropWhile isNumC)

def matchMarkerAt (s : List Char) : Option (List Char × List Char) := do
  let r ← lit ("var".data) s
  let r ← ws1 r
  let r ← lit ("marker".data) r
  let r ← lit ("=".data) (ws0 r)
  let r ← lit ("L.marker(".data) (ws0 r)
  let r ← lit ("[".data) (ws0 r)
  let (g1, r) ← grabNum (ws0 r)
  let r ← lit (",".data) (ws0 r)
  let (g2, r) ← grabNum (ws0 r)
  let _ ← lit ("]".data) (ws0 r)
  pure (g1, g2)

/- Every position, in text order, at which the marker pattern matches,
with the two captured groups. -/
def allMatches : List Char → List (List Char × List Char)
  | [] => []
  | c :: r =>
    (match matchMarkerAt (c :: r) with
     | some g => [g]
     | none => []) ++ allMatches r

/- re.search: the match at the leftmost matching position. -/
def searchMarker : List Char → Option (List Char × List Char)
  | [] => none
  | c :: r =>
    match matchMarkerAt (c :: r) with
    | some g => some g
    | none => searchMarker r

/- ## Python float() on text drawn from the class [-\d.]

An optional leading minus sign, then digits with at most one point and at
least one digit.  The value is taken exactly, as a rational. -/

def digitsValQ (cs : List Char) : ℚ :=
  ((cs.foldl (fun a c => a * 10 + (c.toNat - 48)) 0 : Nat) : ℚ)

def parseUnsigned (cs : List Char) : Option ℚ :=
  match cs.dropWhile Char.isDigit with
  | [] => if (cs.takeWhile Char.isDigit).isEmpty then none else some (digitsValQ cs)
  | '.' :: frac =>
    if frac.all Char.isDigit && !((cs.takeWhile Char.isDigit).isEmpty && frac.isEmpty) then
      some (digitsValQ (cs.takeWhile Char.isDigit) + digitsValQ frac / (10 : ℚ) ^ frac.length)
    else none
  | _ => none

def pyFloat : List Char → Option ℚ
  | '-' :: r => (parseUnsigned r).map (fun q => -q)
  | cs => parseUnsigned cs

/- ## The per event resolution loop of lines 147 to 167

The try block catches requests.RequestException only: a transport failure
on one event logs and continues.  A ValueError from float() on a matched
group is not caught and unwinds out of the whole function, which the
error case of Except models. -/
def resolveLoop (fetch : String → Except Unit String) :
    List Event → List Event × List Log → Except Unit (List Event × List Log)
  | [], acc => .ok acc
  | evt :: rest, acc =>
    match fetch evt.link with
    | .error _ => resolveLoop fetch rest (acc.1, acc.2 ++ [Log.errorFetching evt.link])
    | .ok body =>
      match searchMarker body.data with
      | none => resolveLoop fetch rest (acc.1, acc.2 ++ [Log.noMarker evt.link])
      | some (g1, g2) =>
        match pyFloat g1, pyFloat g2 with
        | some la, some lo =>
          resolveLoop fetch rest
            (acc.1 ++ [⟨evt.link, evt.datetime, la, lo⟩], acc.2 ++ [Log.foundMarker la lo])
        | _, _ => .error ()

/- extract_marker_positions, lines 130 to 169.  fetch models requests.get
plus raise_for_status (error on network failure or non 2xx status);
parseDoc models the BeautifulSoup parse of the listing body into li
entries. -/
def extract_marker_positions (fetch : String → Except Unit String)
    (parseDoc : String → List Entry) (urljoin : String → String → String)
    (start_url : String) : Except Unit (List Event × List Log) :=
  match fetch start_url with
  | .error _ => .ok ([], [Log.loadingUrl start_url, Log.failedLoad start_url])
  | .ok body =>
    resolveLoop fetch (extract_event_links_and_dates urljoin (parseDoc body) start_url).1
      ([], Log.loadingUrl start_url
        :: (extract_event_links_and_dates urljoin (parseDoc body) start_url).2)

/- The page loop of the main block, lines 206 to 208: positions from the
successive paginated listing urls are concatenated with list +=, with no
de-duplication of any kind across pages. -/
def crawl_and_merge (fetch : String → Except Unit String)
    (parseDoc : String → List Entry) (urljoin : String → String → String)
    (urls : List String) : Except Unit (List Event) :=
  urls.foldlM
    (fun acc u => (extract_marker_positions fetch parseDoc urljoin u).map
      (fun r => acc ++ r.1)) []

/- ## The map builder, generate_map, lines 172 to 195 -/

def monthName : Nat → String
  | 1 => "January"
  | 2 => "February"
  | 3 => "March"
  | 4 => "April"
  | 5 => "May"
  | 6 => "June"
  | 7 => "July"
  | 8 => "August"
  | 9 => "September"
  | 10 => "October"
  | 11 => "November"
  | 12 => "December"
  | _ => ""

/- strftime with format %B %d, %Y: full month name, zero padded day,
zero padded four digit year. -/
def strftimeBdY (d : Date) : String :=
  monthName d.month ++ " " ++ String.mk (pad2 d.day) ++ ", " ++ String.mk (pad4 d.year)

/- The popup fragment of line 190. -/
def popupHtml (e : Event) : String :=
  "<a href=\"" ++ e.link ++ "\" target=\"_blank\"><b>" ++ Event.title e
    ++ "</b></a><br>Date: " ++ strftimeBdY e.datetime

/- The saved artifact as the folium capability receives it: the initial
canvas view of line 177, the view the easy button JsButton restores in
its setView call of line 183, and one marker with popup per event. -/
structure MapArtifact where
  location : ℚ × ℚ
  zoom_start : Nat
  resetLocation : ℚ × ℚ
  resetZoom : Nat
  markers : List ((ℚ × ℚ) × String)
deriving DecidableEq

/- generate_map returns none when nothing is saved (the empty input no
op) and some (path, artifact) when m.save(output_file) runs. -/
def generate_map (marker_positions : List Event) (output_file : String) :
    Option (String × MapArtifact) :=
  if marker_positions = [] then none
  else some (output_file,
    ⟨(48.856614, 2.3522219), 6, (48.856614, 2.3522219), 6,
     marker_positions.map (fun e => ((e.lat, e.lon), popupHtml e))⟩)

/- ## Substring containment over strings -/

def listInfixOf (p : List Char) : List Char → Bool
  | [] => p.isEmpty
  | c :: r => p.isPrefixOf (c :: r) || listInfixOf p r

def containsStr (s sub : String) : Bool := listInfixOf sub.data s.data

/- ## Concrete scenario data used by counterexamples and witnesses -/

/- Stand in for the external urljoin capability at concrete inputs; no
claim depends on how urljoin combines its arguments. -/
def joinId : String → String → String := fun _ h => h

def bodyOneMarker : String := "var marker = L.marker([48.85,2.35]"

def fetchC1 : String → Except Unit String := fun u =>
  if u = "p1" || u = "p2" then .ok "L"
  else if u = "e.html" then .ok bodyOneMarker
  else .error ()

def parseDocC1 : String → List Entry := fun b =>
  if b = "L" then [⟨some (some "e.html"), some "2024-04-05"⟩] else []

def evC1 : Event := ⟨"e.html", ⟨2024, 4, 5⟩, 48.85, 2.35⟩

/- A body whose single pattern match has groups that float() rejects. -/
def bodyBadFloat : String := "var marker = L.marker([.,.]"

def fetchC2 : String → Except Unit String := fun u =>
  if u = "list" then .ok "L" else if u = "e.html" then .ok bodyBadFloat else .error ()

def dW : Date := ⟨2024, 1, 1⟩

def ev1 : Event := ⟨"a", dW, 0, 0⟩
def ev2 : Event := ⟨"b", dW, 0, 0⟩
def ev3 : Event := ⟨"c", dW, 0, 0⟩

def fetch3 : String → Except Unit String := fun u =>
  if u = "a" then .ok "var marker = L.marker([1,2]"
  else if u = "c" then .ok "var marker = L.marker([3,4]"
  else .error ()

def evC3 : Event := ⟨"https://example.com/calendrier/autumn-forest-walk.html", ⟨2024, 4, 5⟩, 0, 0⟩

def evFftri : Event :=
  ⟨"https://fftri.t2area.com/calendrier/autumn-forest-walk.html", ⟨2024, 4, 5⟩, 0, 0⟩

def fetchC8 : String → Except Unit String := fun _ => .error ()

def fetchC5 : String → Except Unit String := fun _ => .ok bodyOneMarker

def evW5 : Event := ⟨"l", dW, 0, 0⟩

def bodyTwoMarkers : String := "var marker = L.marker([1,2] var marker = L.marker([3,4]"

def fetchC10 : String → Except Unit String := fun _ => .ok bodyTwoMarkers

/- The artifact generate_map produces for the single event evC1. -/
def artC9 : String × MapArtifact :=
  ("o", ⟨(48.856614, 2.3522219), 6, (48.856614, 2.3522219), 6,
    [((evC1.lat, evC1.lon), popupHtml evC1)]⟩)

/- ## Helper lemmas -/

theorem dchar_toNat (k : Nat) (h : k < 10) : (dchar k).toNat = 48 + k := by
  interval_cases k <;> rfl

theorem dchar_isDigit (k : Nat) (h : k < 10) : (dchar k).isDigit = true := by
  interval_cases k <;> rfl

theorem daysInMonth_le_31 (y m : Nat) : daysInMonth y m ≤ 31 := by
  unfold daysInMonth
  split_ifs <;> omega

theorem matchYear_pad4 (y : Nat) (h : y ≤ 9999) (r : List Char) :
    matchYear (pad4 y ++ r) = some (y, r) := by
  have h1 : y / 1000 % 10 < 10 := Nat.mod_lt _ (by norm_num)
  have h2 : y / 100 % 10 < 10 := Nat.mod_lt _ (by norm_num)
  have h3 : y / 10 % 10 < 10 := Nat.mod_lt _ (by norm_num)
  have h4 : y % 10 < 10 := Nat.mod_lt _ (by norm_num)
  simp only [pad4, List.cons_append, List.nil_append, matchYear,
    dchar_isDigit _ h1, dchar_isDigit _ h2, dchar_isDigit _ h3, dchar_isDigit _ h4,
    dchar_toNat _ h1, dchar_toNat _ h2, dchar_toNat _ h3, dchar_toNat _ h4,
    and_self, if_true, Option.some.injEq, Prod.mk.injEq, and_true]
  omega

theorem matchMonth_pad2 (m : Nat) (h1 : 1 ≤ m) (h2 : m ≤ 12) (r : List Char) :
    matchMonth (pad2 m ++ r) = some (m, r) := by
  interval_cases m <;> rfl

theorem matchDay_pad2 (d : Nat) (h1 : 1 ≤ d) (h2 : d ≤ 31) (r : List Char) :
    matchDay (pad2 d ++ r) = some (d, r) := by
  interval_cases d <;> rfl

/- Any strictly zero padded rendering of a valid calendar date is parsed
back to exactly the same date by the strptime model. -/
theorem pyStrptime_fmt (y m d : Nat) (hy : 1 ≤ y) (hy2 : y ≤ 9999) (hm : 1 ≤ m)
    (hm2 : m ≤ 12) (hd : 1 ≤ d) (hd2 : d ≤ daysInMonth y m) :
    pyStrptimeYMD (fmtYMD y m d) = some ⟨y, m, d⟩ := by
  have hd31 : d ≤ 31 := le_trans hd2 (daysInMonth_le_31 y m)
  have hD : matchDay (pad2 d) = some (d, []) := by
    have := matchDay_pad2 d hd hd31 []
    simpa using this
  have hM : matchMonth (pad2 m ++ ('-' :: pad2 d)) = some (m, '-' :: pad2 d) :=
    matchMonth_pad2 m hm hm2 _
  have hY : matchYear (pad4 y ++ ('-' :: (pad2 m ++ ('-' :: pad2 d))))
      = some (y, '-' :: (pad2 m ++ ('-' :: pad2 d))) := matchYear_pad4 y hy2 _
  unfold fmtYMD pyStrptimeYMD
  rw [hY]
  simp only [reduceIte, hM, hD]
  simp [hy, hd, hd2]

theorem searchMarker_eq_head (s : List Char) : searchMarker s = (allMatches s).head? := by
  induction s with
  | nil => rfl
  | cons c r ih =>
    simp only [searchMarker, allMatches]
    cases matchMarkerAt (c :: r) with
    | some g => rfl
    | none => simpa using ih

theorem mem_setAdd_self (s : List Event) (e : Event) : e ∈ setAdd s e := by
  unfold setAdd
  split
  · assumption
  · simp

theorem setAdd_mem_eq (s : List Event) (e : Event) (h : e ∈ s) : setAdd s e = s := by
  unfold setAdd
  exact if_pos h

theorem mem_stepE (j : String → String → String) (b : String)
    (acc : List Event × List Log) (li : Entry) (e : Event) (h : e ∈ acc.1) :
    e ∈ (stepE j b acc li).1 := by
  unfold stepE
  cases parseEntry j b li with
  | ok ev =>
    show e ∈ setAdd acc.1 ev
    unfold setAdd
    split
    · exact h
    · exact List.mem_append_left _ h
  | skipSilent => exact h
  | skipWarn => exact h

theorem mem_foldl_stepE (j : String → String → String) (b : String) (lis : List Entry)
    (e : Event) : ∀ acc : List Event × List Log, e ∈ acc.1 →
    e ∈ (lis.foldl (stepE j b) acc).1 := by
  induction lis with
  | nil => intro acc h; exact h
  | cons li rest ih =>
    intro acc h
    exact ih _ (mem_stepE j b acc li e h)

theorem genEvents_mem_foldl (j : String → String → String) (b : String)
    (lis : List Entry) : ∀ acc : List Event × List Log, ∀ e ∈ genEvents j b lis,
    e ∈ (lis.foldl (stepE j b) acc).1 := by
  induction lis with
  | nil => intro acc e he; simp [genEvents] at he
  | cons li rest ih =>
    intro acc e he
    simp only [genEvents, List.filterMap_cons] at he
    cases hp : parseEntry j b li with
    | ok ev =>
      rw [hp] at he
      simp only [List.mem_cons] at he
      cases he with
      | inl h =>
        subst h
        simp only [List.foldl_cons]
        apply mem_foldl_stepE
        simp only [stepE, hp]
        exact mem_setAdd_self acc.1 e
      | inr h =>
        simp only [List.foldl_cons]
        exact ih _ e h
    | skipSilent =>
      rw [hp] at he
      simp only [List.foldl_cons]
      exact ih _ e he
    | skipWarn =>
      rw [hp] at he
      simp only [List.foldl_cons]
      exact ih _ e he

theorem foldl_stepE_fixed (j : String → String → String) (b : String) (lis : List Entry) :
    ∀ acc : List Event × List Log, (∀ e ∈ genEvents j b lis, e ∈ acc.1) →
    (lis.foldl (stepE j b) acc).1 = acc.1 := by
  induction lis with
  | nil => intro acc _; rfl
  | cons li rest ih =>
    intro acc hsub
    simp only [List.foldl_cons]
    cases hp : parseEntry j b li with
    | ok ev =>
      have hev : ev ∈ acc.1 := by
        apply hsub
        simp [genEvents, List.filterMap_cons, hp]
      have hstep : stepE j b acc li = (acc.1, acc.2) := by
        simp only [stepE, hp, setAdd_mem_eq acc.1 ev hev]
      rw [hstep]
      have := ih (acc.1, acc.2) (fun e he => by
        apply hsub
        simp only [genEvents, List.filterMap_cons, hp]
        exact List.mem_cons_of_mem _ he)
      simpa using this
    | skipSilent =>
      have hstep : stepE j b acc li = acc := by simp only [stepE, hp]
      rw [hstep]
      exact ih acc (fun e he => hsub e (by
        simp only [genEvents, List.filterMap_cons, hp]
        exact he))
    | skipWarn =>
      have hstep : stepE j b acc li = (acc.1, acc.2 ++ [Log.warnParse]) := by
        simp only [stepE, hp]
      rw [hstep]
      have := ih (acc.1, acc.2 ++ [Log.warnParse]) (fun e he => by
        have : e ∈ acc.1 := hsub e (by
          simp only [genEvents, List.filterMap_cons, hp]
          exact he)
        simpa using this)
      simpa using this

theorem foldl_stepE_fst_logs (j : String → String → String) (b : String)
    (lis : List Entry) : ∀ (a1 : List Event) (l1 l2 : List Log),
    (lis.foldl (stepE j b) (a1, l1)).1 = (lis.foldl (stepE j b) (a1, l2)).1 := by
  induction lis with
  | nil => intro a1 l1 l2; rfl
  | cons li rest ih =>
    intro a1 l1 l2
    simp only [List.foldl_cons]
    cases hp : parseEntry j b li <;> simp only [stepE, hp] <;> exact ih _ _ _

theorem log_mem_foldl_stepE (j : String → String → String) (b : String)
    (lis : List Entry) : ∀ (acc : List Event × List Log) (l : Log), l ∈ acc.2 →
    l ∈ (lis.foldl (stepE j b) acc).2 := by
  induction lis with
  | nil => intro acc l h; exact h
  | cons li rest ih =>
    intro acc l h
    simp only [List.foldl_cons]
    cases hp : parseEntry j b li with
    | ok ev =>
      have hstep : stepE j b acc li = (setAdd acc.1 ev, acc.2) := by
        simp only [stepE, hp]
      rw [hstep]
      exact ih _ l h
    | skipSilent =>
      have hstep : stepE j b acc li = acc := by simp only [stepE, hp]
      rw [hstep]
      exact ih _ l h
    | skipWarn =>
      have hstep : stepE j b acc li = (acc.1, acc.2 ++ [Log.warnParse]) := by
        simp only [stepE, hp]
      rw [hstep]
      exact ih _ l (List.mem_append_left _ h)

theorem resolveLoop_fst_logs (fetch : String → Except Unit String) (rest : List Event) :
    ∀ (ms : List Event) (l1 l2 : List Log),
    (resolveLoop fetch rest (ms, l1)).map Prod.fst
      = (resolveLoop fetch rest (ms, l2)).map Prod.fst := by
  induction rest with
  | nil => intro ms l1 l2; rfl
  | cons evt rest ih =>
    intro ms l1 l2
    simp only [resolveLoop]
    split
    · exact ih ms _ _
    · split
      · exact ih ms _ _
      · split
        · exact ih _ _ _
        · rfl

/- ## Claim C1 -/

/-- Claim C1, counterexample: two listing page crawls that yield the same
entry produce a merged collection holding that link twice, because the
main loop concatenates page results with no cross page de-duplication;
the claim of exactly one Event per link is false on the code. -/
theorem c1_counterexample :
    crawl_and_merge fetchC1 parseDocC1 joinId ["p1", "p2"] = .ok [evC1, evC1]
    ∧ evC1.link = "e.html" := ⟨by with_unfolding_all rfl, rfl⟩

/-- Claim C1 (amended): hashing of an Event uses the link alone, but the
dataclass equality compares every field, so de-duplication collapses only
entries equal in all fields; within one listing page parse a repeated
identical entry list yields the same event set, while two events with
equal links and different dates stay distinct (and are both kept);
results of different paginated crawls are concatenated without any
de-duplication. -/
theorem c1_dedup_semantics (j : String → String → String) (lis : List Entry)
    (base : String) (e1 e2 : Event) (hl : e1.link = e2.link)
    (hd : e1.datetime ≠ e2.datetime) :
    (extract_event_links_and_dates j (lis ++ lis) base).1
      = (extract_event_links_and_dates j lis base).1
    ∧ eventHash e1 = eventHash e2 ∧ e1 ≠ e2 := by
  refine ⟨?_, hl, ?_⟩
  · unfold extract_event_links_and_dates
    simp only [List.foldl_append]
    exact foldl_stepE_fixed j base lis _ (fun e he => genEvents_mem_foldl j base lis _ e he)
  · intro hcontra
    exact hd (by rw [hcontra])

/-- Claim C1 witness: the amended statement at a concrete page and a
concrete pair of events sharing a link but not a date. -/
theorem c1_dedup_semantics_witness :
    (extract_event_links_and_dates joinId
        ([⟨some (some "e"), some "2024-04-05"⟩] ++ [⟨some (some "e"), some "2024-04-05"⟩]) "b").1
      = (extract_event_links_and_dates joinId [⟨some (some "e"), some "2024-04-05"⟩] "b").1
    ∧ eventHash ⟨"x", ⟨2024, 1, 1⟩, 0, 0⟩ = eventHash ⟨"x", ⟨2024, 1, 2⟩, 0, 0⟩
    ∧ (⟨"x", ⟨2024, 1, 1⟩, 0, 0⟩ : Event) ≠ ⟨"x", ⟨2024, 1, 2⟩, 0, 0⟩ :=
  c1_dedup_semantics joinId [⟨some (some "e"), some "2024-04-05"⟩] "b"
    ⟨"x", ⟨2024, 1, 1⟩, 0, 0⟩ ⟨"x", ⟨2024, 1, 2⟩, 0, 0⟩ rfl (by decide)

/- ## Claim C2 -/

/-- Claim C2, counterexample: a detail page whose single pattern match
captures groups float() rejects makes the whole resolution raise (the
except clause catches RequestException only), so a parse failure on one
event is not contained: the model returns the error case instead of a
result list. -/
theorem c2_counterexample :
    extract_marker_positions fetchC2 parseDocC1 joinId "list" = .error () := rfl

/-- Claim C2 (amended): a transport failure fetching one detail page is
contained to that event: dropping the failing event from the sequence
leaves the resolved collection unchanged, and the remaining events still
resolve; a float parse failure of matched coordinate text, however,
propagates out of the loop. -/
theorem c2_transport_isolation (fetch : String → Except Unit String) (xs : List Event)
    (e : Event) (ys : List Event) (ms : List Event) (logs : List Log)
    (h : fetch e.link = .error ()) :
    (resolveLoop fetch (xs ++ e :: ys) (ms, logs)).map Prod.fst
      = (resolveLoop fetch (xs ++ ys) (ms, logs)).map Prod.fst := by
  induction xs generalizing ms logs with
  | nil =>
    simp only [List.nil_append, resolveLoop, h]
    exact resolveLoop_fst_logs fetch ys ms _ _
  | cons x xs ih =>
    simp only [List.cons_append, resolveLoop]
    split
    · exact ih _ _
    · split
      · exact ih _ _
      · split
        · exact ih _ _
        · rfl

/-- Claim C2 witness: three events where the second causes a transport
failure; the first and third still resolve and the final resolved
collection has exactly those two entries. -/
theorem c2_transport_isolation_witness :
    (resolveLoop fetch3 ([ev1] ++ ev2 :: [ev3]) ([], [])).map Prod.fst
      = (resolveLoop fetch3 ([ev1] ++ [ev3]) ([], [])).map Prod.fst
    ∧ (resolveLoop fetch3 [ev1, ev2, ev3] ([], [])).map Prod.fst
      = .ok [⟨"a", dW, 1, 2⟩, ⟨"c", dW, 3, 4⟩] :=
  ⟨c2_transport_isolation fetch3 [ev1] ev2 [ev3] [] [] rfl, rfl⟩

/- ## Claim C3 -/

/-- Claim C3, counterexample: for the link under example.com the derived
title is not the literal string named by the claim, because the prefix
removal only strips the fftri.t2area.com calendar prefix; title casing is
applied to the whole remaining url. -/
theorem c3_counterexample :
    Event.title evC3 ≠ "Autumn Forest Walk"
    ∧ Event.title evC3 = "Https://Example.Com/Calendrier/Autumn Forest Walk" :=
  ⟨by decide, rfl⟩

/-- Claim C3 (amended): the popup fragment for that event does contain
the strings Autumn Forest Walk and April 05, 2024, but only as substrings
of the longer title cased url; for the analogous link under the
fftri.t2area.com calendar prefix the derived title is exactly Autumn
Forest Walk. -/
theorem c3_popup_content :
    containsStr (popupHtml evC3) "Autumn Forest Walk" = true
    ∧ containsStr (popupHtml evC3) "April 05, 2024" = true
    ∧ Event.title evFftri = "Autumn Forest Walk" :=
  ⟨by decide, by decide, rfl⟩

/- ## Claim C4 -/

/-- Claim C4, counterexample: a listing page with one entry missing the
link element and one complete entry yields only the complete event, and
the emitted log holds no parse warning at all: the skip of the first
entry is silent, refuting the claim that such entries are skipped with a
warning. -/
theorem c4_counterexample :
    extract_event_links_and_dates joinId
        [⟨none, some "2024-04-05"⟩, ⟨some (some "g"), some "2024-04-05"⟩] "b"
      = ([⟨"g", ⟨2024, 4, 5⟩, 0, 0⟩], [Log.found 1])
    ∧ Log.warnParse ∉ [Log.found 1] := ⟨rfl, by decide⟩

/-- Claim C4 (amended): an entry missing the link element or the
machine readable datetime attribute is skipped silently (the truthiness
test simply fails; a warning is logged only when an exception is caught,
for example a link element without href or a malformed date), the
remaining entries are parsed unchanged, and the condition is never
fatal. -/
theorem c4_missing_tag_skip (j : String → String → String) (base : String)
    (li : Entry) (rest : List Entry) (h : li.aTag = none ∨ li.timeDatetime = none) :
    extract_event_links_and_dates j (li :: rest) base
      = extract_event_links_and_dates j rest base := by
  have hp : parseEntry j base li = .skipSilent := by
    rcases h with h | h
    · cases ht : li.timeDatetime <;> simp [parseEntry, h, ht]
    · cases ha : li.aTag with
      | none => simp [parseEntry, ha, h]
      | some a => cases a <;> simp [parseEntry, ha, h]
  have hstep : stepE j base ([], []) li = ([], []) := by simp only [stepE, hp]
  unfold extract_event_links_and_dates
  simp only [List.foldl_cons, hstep]

/-- Claim C4 witness: the amended statement at a concrete entry with no
link element. -/
theorem c4_missing_tag_skip_witness :
    extract_event_links_and_dates joinId (⟨none, some "2024-04-05"⟩ :: []) "b"
      = extract_event_links_and_dates joinId [] "b" :=
  c4_missing_tag_skip joinId "b" ⟨none, some "2024-04-05"⟩ [] (Or.inl rfl)

/- ## Claim C5 -/

/-- Claim C5: when the body of the detail page has exactly one marker
pattern occurrence with groups 48.85 and 2.35, resolution of the event
yields a new Event with latitude 48.85 and longitude 2.35 carrying the
original link and date unchanged; when the body has no occurrence the
event is dropped and the resolved collection is empty. -/
theorem c5_marker_precision (fetch : String → Except Unit String) (evt : Event)
    (body : String) (hf : fetch evt.link = .ok body) :
    (allMatches body.data = [("48.85".data, "2.35".data)] →
      (resolveLoop fetch [evt] ([], [])).map Prod.fst
        = .ok [⟨evt.link, evt.datetime, 48.85, 2.35⟩])
    ∧ (allMatches body.data = [] →
      (resolveLoop fetch [evt] ([], [])).map Prod.fst = .ok []) := by
  constructor
  · intro hm
    have hs : searchMarker body.data = some ("48.85".data, "2.35".data) := by
      rw [searchMarker_eq_head, hm]
      rfl
    have h1 : pyFloat ("48.85".data) = some (48.85 : ℚ) := by with_unfolding_all rfl
    have h2 : pyFloat ("2.35".data) = some (2.35 : ℚ) := by with_unfolding_all rfl
    simp only [resolveLoop, hf, hs, h1, h2]
    rfl
  · intro hm
    have hs : searchMarker body.data = none := by
      rw [searchMarker_eq_head, hm]
      rfl
    simp only [resolveLoop, hf, hs]
    rfl

/-- Claim C5 witness: a concrete body holding exactly the marker literal
once resolves to 48.85 and 2.35. -/
theorem c5_marker_precision_witness :
    (resolveLoop fetchC5 [evW5] ([], [])).map Prod.fst
      = .ok [⟨evW5.link, evW5.datetime, 48.85, 2.35⟩] :=
  (c5_marker_precision fetchC5 evW5 bodyOneMarker rfl).1 (by decide)

/- ## Claim C6 -/

/-- Claim C6, counterexample: the attribute 2024-4-5 does not match the
zero padded format YYYY-MM-DD, yet the entry is not excluded: CPython
strptime accepts one digit months and days, so the event is produced with
date 2024-04-05, refuting the exclusion half of the claim. -/
theorem c6_counterexample :
    extract_event_links_and_dates joinId [⟨some (some "e"), some "2024-4-5"⟩] "b"
      = ([⟨"e", ⟨2024, 4, 5⟩, 0, 0⟩], [Log.found 1]) := rfl

/-- Claim C6 (amended): every strictly zero padded YYYY-MM-DD attribute
denoting a valid calendar date parses to exactly that date and the entry
yields an Event carrying it; an attribute the parser rejects causes that
single entry to be excluded with a logged warning while the remaining
entries of the page are unaffected; the accepted language is however
wider than the strict format, also admitting unpadded months and days. -/
theorem c6_date_parsing (y m d : Nat) (j : String → String → String)
    (base h2 s : String) (s2 : String) (li li2 : Entry) (rest : List Entry)
    (hy : 1 ≤ y) (hy2 : y ≤ 9999) (hm : 1 ≤ m) (hm2 : m ≤ 12)
    (hd : 1 ≤ d) (hd2 : d ≤ daysInMonth y m)
    (hs2 : s2.data = fmtYMD y m d)
    (ha2 : li2.aTag = some (some h2)) (ht2 : li2.timeDatetime = some s2)
    (ha : li.aTag = some (some h2)) (ht : li.timeDatetime = some s)
    (hp : pyStrptimeYMD s.data = none) :
    pyStrptimeYMD (fmtYMD y m d) = some ⟨y, m, d⟩
    ∧ parseEntry j base li2 = .ok ⟨j base h2, ⟨y, m, d⟩, 0, 0⟩
    ∧ (extract_event_links_and_dates j (li :: rest) base).1
      = (extract_event_links_and_dates j rest base).1
    ∧ Log.warnParse ∈ (extract_event_links_and_dates j (li :: rest) base).2 := by
  have hfmt := pyStrptime_fmt y m d hy hy2 hm hm2 hd hd2
  have hpw : parseEntry j base li = .skipWarn := by simp [parseEntry, ha, ht, hp]
  have hstep : stepE j base ([], []) li = ([], [Log.warnParse]) := by
    simp only [stepE, hpw, List.nil_append]
  refine ⟨hfmt, ?_, ?_, ?_⟩
  · simp only [parseEntry, ha2, ht2, hs2, hfmt]
  · unfold extract_event_links_and_dates
    simp only [List.foldl_cons, hstep]
    exact foldl_stepE_fst_logs j base rest [] [Log.warnParse] []
  · unfold extract_event_links_and_dates
    simp only [List.foldl_cons, hstep]
    apply List.mem_append_left
    exact log_mem_foldl_stepE j base rest ([], [Log.warnParse]) Log.warnParse (by simp)

/-- Claim C6 witness: the amended statement at the date 2024-04-05, a
good entry carrying its zero padded rendering and a bad entry whose
attribute the parser rejects. -/
theorem c6_date_parsing_witness :
    pyStrptimeYMD (fmtYMD 2024 4 5) = some ⟨2024, 4, 5⟩
    ∧ parseEntry joinId "b" ⟨some (some "u"), some (String.mk (fmtYMD 2024 4 5))⟩
      = .ok ⟨joinId "b" "u", ⟨2024, 4, 5⟩, 0, 0⟩
    ∧ (extract_event_links_and_dates joinId (⟨some (some "u"), some "nope"⟩ :: []) "b").1
      = (extract_event_links_and_dates joinId [] "b").1
    ∧ Log.warnParse
      ∈ (extract_event_links_and_dates joinId (⟨some (some "u"), some "nope"⟩ :: []) "b").2 :=
  c6_date_parsing 2024 4 5 joinId "b" "u" "nope" (String.mk (fmtYMD 2024 4 5))
    ⟨some (some "u"), some "nope"⟩ ⟨some (some "u"), some (String.mk (fmtYMD 2024 4 5))⟩ []
    (by decide) (by decide) (by decide) (by decide) (by decide) (by decide)
    rfl rfl rfl rfl rfl (by decide)

/- ## Claim C7 -/

/-- Claim C7: for every output path, generate_map on the empty event list
returns without producing an artifact: no file at the path is created or
modified. -/
theorem c7_empty_noop (output_file : String) : generate_map [] output_file = none := rfl

/- ## Claim C8 -/

/-- Claim C8: when the listing page fetch fails, the crawl of that page
logs the failure and returns an empty result to its caller instead of
raising, so the other paginated pages can still be crawled. -/
theorem c8_listing_failure (fetch : String → Except Unit String)
    (parseDoc : String → List Entry) (j : String → String → String) (url : String)
    (h : fetch url = .error ()) :
    extract_marker_positions fetch parseDoc j url
      = .ok ([], [Log.loadingUrl url, Log.failedLoad url]) := by
  unfold extract_marker_positions
  rw [h]

/-- Claim C8 witness: a transport that always fails produces the empty
result with the failure logged. -/
theorem c8_listing_failure_witness :
    extract_marker_positions fetchC8 parseDocC1 joinId "u"
      = .ok ([], [Log.loadingUrl "u", Log.failedLoad "u"]) :=
  c8_listing_failure fetchC8 parseDocC1 joinId "u" rfl

/- ## Claim C9 -/

/-- Claim C9: every artifact the map builder saves has its reset view
control recenter to exactly the coordinate and zoom the canvas is
initially created with. -/
theorem c9_reset_view (evts : List Event) (path : String) (art : String × MapArtifact)
    (h : generate_map evts path = some art) :
    art.2.location = art.2.resetLocation ∧ art.2.zoom_start = art.2.resetZoom := by
  unfold generate_map at h
  split at h
  · exact absurd h (by simp)
  · obtain rfl := (Option.some.inj h).symm
    exact ⟨rfl, rfl⟩

/-- Claim C9 witness: the artifact for one concrete event. -/
theorem c9_reset_view_witness :
    artC9.2.location = artC9.2.resetLocation ∧ artC9.2.zoom_start = artC9.2.resetZoom :=
  c9_reset_view [evC1] "o" artC9 rfl

/- ## Claim C10 -/

/-- Claim C10: when the body of the detail page matches the marker
pattern at several positions, resolution takes the match at the earliest
position in text order and ignores all later ones. -/
theorem c10_first_match (fetch : String → Except Unit String) (evt : Event)
    (body : String) (g1 g2 : List Char) (rest : List (List Char × List Char))
    (la lo : ℚ) (hf : fetch evt.link = .ok body)
    (hm : allMatches body.data = (g1, g2) :: rest)
    (h1 : pyFloat g1 = some la) (h2 : pyFloat g2 = some lo) :
    (resolveLoop fetch [evt] ([], [])).map Prod.fst
      = .ok [⟨evt.link, evt.datetime, la, lo⟩] := by
  have hs : searchMarker body.data = some (g1, g2) := by
    rw [searchMarker_eq_head, hm]
    rfl
  simp only [resolveLoop, hf, hs, h1, h2]
  rfl

/-- Claim C10 witness: a body with two marker literals resolves to the
coordinates of the first one. -/
theorem c10_first_match_witness :
    (resolveLoop fetchC10 [ev1] ([], [])).map Prod.fst
      = .ok [⟨ev1.link, ev1.datetime, 1, 2⟩] :=
  c10_first_match fetchC10 ev1 bodyTwoMarkers ("1".data) ("2".data)
    [("3".data, "4".data)] 1 2 rfl (by decide) (by decide) (by decide)

end FftriMap
